import Mathlib

/-!
Shallow embedding of the RoomClient reconciliation controller
(src/src/room-client.ts).  The external collaborators (Automerge CRDT
primitives, the offline Identity Store, the authorization call, the peer
relay) are modelled as an environment of oracle functions; the controller
state and each controller operation are translated directly from the
TypeScript source.  Side effects (peer notifications, debounced offline
saves, console warnings/errors, user-callback invocations) are returned
explicitly in an `Effects` record.
-/

namespace Room

/-- Decidable equality for `Except`, used to evaluate outcomes on concrete
inputs. -/
instance {E A : Type} [DecidableEq E] [DecidableEq A] : DecidableEq (Except E A) :=
  fun x y =>
    match x, y with
    | .error a, .error b =>
      if h : a = b then isTrue (by rw [h]) else isFalse (fun hh => h (Except.error.inj hh))
    | .error _, .ok _ => isFalse fun hh => Except.noConfusion hh
    | .ok _, .error _ => isFalse fun hh => Except.noConfusion hh
    | .ok a, .ok b =>
      if h : a = b then isTrue (by rw [h]) else isFalse (fun hh => h (Except.ok.inj hh))

/-- Errors thrown by the controller itself: the `throw new Error(...)` and
`invariant(...)` sites of room-client.ts, by meaning. -/
inductive RoomError where
  /-- "Expected a _roomId to be defined before we invoked the onUpdate callback." -/
  | roomIdMissing
  /-- "The room's state object does not include an 'msg' attribute." -/
  | missingMsg
  /-- "Response from RoomService API seems corrupted, aborting. Response: \x7bdata\x7d";
  carries the raw message payload string. -/
  | corrupted (data : String)
  /-- invariant: "It looks like you've called onUpdate multiple times." -/
  | doubleUpdateCallback
  /-- invariant in publishDoc: regenerating a deleted document with no cached actor id. -/
  | noActorId
  /-- invariant in _sendMsgToSocket: publishing with no room id. -/
  | noRoomId
deriving DecidableEq, Repr

/-- Observable side effects of one controller operation. -/
structure Effects (D : Type) where
  /-- Arguments of `this._peer.notify(...)` calls, in order. -/
  notifies : List D := []
  /-- Arguments `(docId, doc)` of `this._saveOffline(...)` calls (debounced writes
  scheduled, not yet flushed), in order. -/
  saves : List (String × D) := []
  /-- Number of `console.warn` calls. -/
  warns : Nat := 0
  /-- Number of `console.error` calls. -/
  errorsLogged : Nat := 0
  /-- Documents passed to the user's onUpdateDoc callback, in order. -/
  callbackDocs : List D := []
deriving DecidableEq, Repr

/-- The mutable fields of a RoomClient instance. -/
structure Client (D : Type) where
  /-- `this._reference` (readonly, set at construction). -/
  reference : String
  /-- Whether `this._socket` is set (a Transport Session exists). -/
  socket : Bool := false
  /-- `this._roomId`. -/
  roomId : Option String := none
  /-- `this._doc`. -/
  doc : Option D := none
  /-- `this._actorId`. -/
  actorId : Option String := none
  /-- Whether `this._onUpdateSocketCallback` is set. -/
  onUpdateCb : Bool := false
  /-- Number of handlers attached to the live socket's sync_room_state event. -/
  socketUpdateHandlers : Nat := 0
deriving DecidableEq, Repr

/-- The `params` returned by a successful `authorize(authUrl, reference)` call:
`\x7b room: \x7b id, state \x7d, session: \x7b token \x7d \x7d`. -/
structure AuthResponse (B : Type) where
  roomId : String
  roomState : B
  token : String
deriving DecidableEq, Repr

/-- `meta` part of a RoomPacket. -/
structure PacketMeta where
  roomId : String
deriving DecidableEq, Repr

/-- `payload` part of a RoomPacket; `msg` may be absent on a corrupted packet. -/
structure PacketPayload (M : Type) where
  msg : Option M
deriving DecidableEq, Repr

/-- The parsed message envelope `\x7b meta: \x7b roomId \x7d, payload: \x7b msg \x7d \x7d`. -/
structure RoomPacket (M : Type) where
  meta : PacketMeta
  payload : PacketPayload M
deriving DecidableEq, Repr

/-- Environment of external collaborators: Automerge CRDT primitives
(`from`, `load`, `merge`, `save`, `change`), the manymerge peer
(`applyMessage`, clock reconstruction), the authorization call and the
offline Identity Store.  `St` is the user seed-state type `T`, `D` the
document type `Doc<T>`, `B` the serialized-bytes type, `M` the protocol
message type, `E` the type of errors thrown by fallible collaborators. -/
structure RoomEnv (St D B M E : Type) where
  /-- `Automerge.from(seed, \x7b actorId \x7d)`. -/
  fromSeed : St → String → D
  /-- The plain object used for `state || \x7b\x7d` when no seed state is supplied. -/
  emptySeed : St
  /-- The plain object `\x7b\x7d as T` used as last-resort recovery value in init(). -/
  emptyState : D
  /-- `Automerge.load(bytes, \x7b actorId? \x7d)`; throws on corrupt bytes. -/
  load : B → Option String → Except E D
  /-- `Automerge.merge(a, b)`; may throw. -/
  mergeDoc : D → D → Except E D
  /-- `Automerge.save(doc)`. -/
  save : D → B
  /-- `Automerge.change(doc, callback)`: `none` is the unchanged/deleted sentinel;
  the first argument mirrors `this._doc`, which may be undefined. -/
  change : Option D → (St → Unit) → Option D
  /-- `this._peer.applyMessage(msg, doc)`: `none` means the message was rejected. -/
  applyMessage : M → D → Option D
  /-- `payload.msg.clock = Map(payload.msg.clock)`: reconstructing the causal
  clock as a key-ordered mapping. -/
  fixClock : M → M
  /-- `authorize(this._authorizationUrl, this._reference)`. -/
  authorize : Except E (AuthResponse B)
  /-- `Offline.getOrCreateActor()`. -/
  getOrCreateActor : String
  /-- `Offline.getDoc(reference, name)`: absence is a valid no-data result. -/
  getDoc : String → String → Option B

variable {St D B M E : Type}

/-- `createDoc(actorId, state?)`: returns the existing document if one exists;
otherwise creates the default document from the seed under `actorId`, adopts
it and notifies the peer.  Result: (returned doc, new client, peer notifies). -/
def createDoc (env : RoomEnv St D B M E) (actorId : String) (state : Option St)
    (c : Client D) : D × Client D × List D :=
  match c.doc with
  | some d => (d, c, [])
  | none =>
    let defaultDoc := env.fromSeed (state.getD env.emptySeed) actorId
    (defaultDoc, { c with doc := some defaultDoc }, [defaultDoc])

/-- `readActorIdThenCreateDoc(state?)`: resolve the actor id from the Identity
Store, cache it, then `createDoc`. -/
def readActorIdThenCreateDoc (env : RoomEnv St D B M E) (state : Option St)
    (c : Client D) : D × Client D × List D :=
  let actorId := env.getOrCreateActor
  createDoc env actorId state { c with actorId := some actorId }

/-- The `if (!this._doc) \x7b await this.readActorIdThenCreateDoc() \x7d` pattern
used by restore(), init() and the update handler, followed by reading
`this._doc!` (which the ensure step has made defined). -/
def ensureDoc (env : RoomEnv St D B M E) (c : Client D) : D × Client D × List D :=
  match c.doc with
  | some d => (d, c, [])
  | none => readActorIdThenCreateDoc env none c

/-- `syncOfflineCache()`: read the cached snapshot for (reference, "default");
if absent return `this._doc!` unchanged; otherwise `load` it under the stored
actor id (which may throw), adopt it and notify the peer.  Result:
(thrown-or-returned doc, new client, peer notifies). -/
def syncOfflineCache (env : RoomEnv St D B M E) (c : Client D) :
    Except E (Option D) × Client D × List D :=
  match env.getDoc c.reference "default" with
  | none => (.ok c.doc, c, [])
  | some data =>
    let actorId := env.getOrCreateActor
    match env.load data (some actorId) with
    | .error e => (.error e, c, [])
    | .ok offlineDoc => (.ok (some offlineDoc), { c with doc := some offlineDoc }, [offlineDoc])

/-- `restore()`: ensure a document exists, then `syncOfflineCache()`. -/
def restore (env : RoomEnv St D B M E) (c : Client D) :
    Except E (Option D) × Client D × List D :=
  let (_, c1, ns1) := ensureDoc env c
  match syncOfflineCache env c1 with
  | (r, c2, ns2) => (r, c2, ns1 ++ ns2)

/-- The state transition of init()'s success path before the merge step:
record the room id, open the socket, attach the pending update callback
(if one was registered while offline) to the new socket. -/
def onlineClient (auth : AuthResponse B) (c : Client D) : Client D :=
  { c with
    roomId := some auth.roomId
    socket := true
    socketUpdateHandlers := c.socketUpdateHandlers + (if c.onUpdateCb then 1 else 0) }

/-- `init()`: ensure a document, authorize; on authorization failure warn,
run `syncOfflineCache()` and return `this._doc!` (an error thrown by the
cache sync itself propagates); on success go online, then deserialize the
server state with no actor id, resolve the offline cache, merge offline
into server, adopt, notify — any error in that last step is caught, logged,
and `\x7b\x7d as T` is returned instead (without touching `this._doc`). -/
def init (env : RoomEnv St D B M E) (c : Client D) :
    Except E (Option D) × Client D × Effects D :=
  let (_, c1, ns1) := ensureDoc env c
  match env.authorize with
  | .error _ =>
    match syncOfflineCache env c1 with
    | (.error e, c2, ns2) => (.error e, c2, { notifies := ns1 ++ ns2, warns := 1 })
    | (.ok _, c2, ns2) => (.ok c2.doc, c2, { notifies := ns1 ++ ns2, warns := 1 })
  | .ok auth =>
    let c2 := onlineClient auth c1
    match env.load auth.roomState none with
    | .error _ => (.ok (some env.emptyState), c2, { notifies := ns1, errorsLogged := 1 })
    | .ok serverState =>
      match syncOfflineCache env c2 with
      | (.error _, c3, ns2) =>
        (.ok (some env.emptyState), c3, { notifies := ns1 ++ ns2, errorsLogged := 1 })
      | (.ok none, c3, ns2) =>
        (.ok (some env.emptyState), c3, { notifies := ns1 ++ ns2, errorsLogged := 1 })
      | (.ok (some localDoc), c3, ns2) =>
        match env.mergeDoc localDoc serverState with
        | .error _ =>
          (.ok (some env.emptyState), c3, { notifies := ns1 ++ ns2, errorsLogged := 1 })
        | .ok merged =>
          (.ok (some merged), { c3 with doc := some merged },
            { notifies := ns1 ++ ns2 ++ [merged] })

/-- `onUpdateDoc(callback)`: invariant-check that no update callback is
registered; then either store the callback for later attachment (offline)
or attach it to the live socket (which does NOT record it in
`_onUpdateSocketCallback`). -/
def onUpdateDoc (c : Client D) : Option RoomError × Client D :=
  if c.onUpdateCb then (some .doubleUpdateCallback, c)
  else if c.socket then (none, { c with socketUpdateHandlers := c.socketUpdateHandlers + 1 })
  else (none, { c with onUpdateCb := true })

/-- The `socketCallback` handler built by onUpdateDoc, run on one inbound
`sync_room_state` event: parse the envelope, check the room id, check the
payload, ensure a document, reconstruct the clock, apply the message via the
peer, and on success adopt + schedule a debounced save + invoke the user
callback.  Result: (thrown error if any, new client, effects). -/
def socketCallback (env : RoomEnv St D B M E) (data : String) (pkt : RoomPacket M)
    (c : Client D) : Option RoomError × Client D × Effects D :=
  match c.roomId with
  | none => (some .roomIdMissing, c, {})
  | some rid =>
    if pkt.meta.roomId = rid then
      match pkt.payload.msg with
      | none => (some .missingMsg, c, {})
      | some m =>
        let (d, c1, ns1) := ensureDoc env c
        match env.applyMessage (env.fixClock m) d with
        | none => (some (.corrupted data), c1, { notifies := ns1 })
        | some newDoc =>
          (none, { c1 with doc := some newDoc },
            { notifies := ns1, saves := [("default", newDoc)], callbackDocs := [newDoc] })
    else (none, c, {})

/-- `publishDoc(callback)`: apply the mutation via `Automerge.change`; if the
unchanged/deleted sentinel comes back, invariant-check the cached actor id
and re-run `createDoc` under it; adopt the result, schedule a debounced save
under "default", notify the peer, and return the document. -/
def publishDoc (env : RoomEnv St D B M E) (callback : St → Unit) (c : Client D) :
    Except RoomError D × Client D × Effects D :=
  match env.change c.doc callback with
  | some newDoc =>
    (.ok newDoc, { c with doc := some newDoc },
      { notifies := [newDoc], saves := [("default", newDoc)] })
  | none =>
    match c.actorId with
    | none => (.error .noActorId, c, {})
    | some actorId =>
      let (newDoc, c1, ns) := createDoc env actorId none c
      (.ok newDoc, { c1 with doc := some newDoc },
        { notifies := ns ++ [newDoc], saves := [("default", newDoc)] })

/-- Trailing-edge debounce semantics of `lodash.debounce(f, delay)` over a
time-stamped call sequence (times nondecreasing): each call (re)arms a timer
for `delay`; the wrapped function fires with the most recent arguments when
the timer expires, i.e. after every call whose successor arrives no earlier
than `delay` later, and after the final call. -/
def debounceLast (delay : Nat) : List (Nat × α) → List α
  | [] => []
  | [(_, a)] => [a]
  | (t1, a1) :: (t2, a2) :: rest =>
    if t1 + delay ≤ t2 then a1 :: debounceLast delay ((t2, a2) :: rest)
    else debounceLast delay ((t2, a2) :: rest)

/-- The undebounced `saveOffline(docId, doc)` body:
`Offline.setDoc(this._reference, docId, save(doc))`, as the written triple. -/
def saveOfflineWrite (env : RoomEnv St D B M E) (reference : String)
    (arg : String × D) : String × String × B :=
  (reference, arg.1, env.save arg.2)

/-- The Identity-Store writes produced by a time-stamped sequence of
`this._saveOffline(docId, doc)` calls, under `debounce(saveOffline, 120)`. -/
def saveOfflineWrites (env : RoomEnv St D B M E) (reference : String)
    (calls : List (Nat × String × D)) : List (String × String × B) :=
  (debounceLast 120 calls).map (saveOfflineWrite env reference)

/-! Concrete instances used to evaluate the embedding: documents, seeds and
bytes are natural numbers, protocol messages are `Unit`, collaborator errors
are `Unit`.  `fromSeed` returns the seed itself, `load` deserializes bytes to
the equal number, `mergeDoc` adds, `save` is the identity. -/

/-- A successful authorization response. -/
def authA : AuthResponse Nat := { roomId := "r1", roomState := 10, token := "t" }

/-- Baseline concrete environment: authorization succeeds, no offline
snapshot is cached, every CRDT primitive succeeds. -/
def envBase : RoomEnv Nat Nat Nat Unit Unit where
  fromSeed := fun st _ => st
  emptySeed := 0
  emptyState := 0
  load := fun b _ => .ok b
  mergeDoc := fun a b => .ok (a + b)
  save := fun d => d
  change := fun d _ => d
  applyMessage := fun _ d => some (d + 1)
  fixClock := id
  authorize := .ok authA
  getOrCreateActor := "actor1"
  getDoc := fun _ _ => none

/-- Environment in which deserializing any bytes throws. -/
def envLoadFails : RoomEnv Nat Nat Nat Unit Unit :=
  { envBase with load := fun _ _ => .error () }

/-- Environment with a cached offline snapshot (bytes 5) and a merge that throws. -/
def envMergeFails : RoomEnv Nat Nat Nat Unit Unit :=
  { envBase with getDoc := fun _ _ => some 5, mergeDoc := fun _ _ => .error () }

/-- Environment in which authorization fails and no snapshot is cached. -/
def envAuthFails : RoomEnv Nat Nat Nat Unit Unit :=
  { envBase with authorize := .error () }

/-- Environment in which authorization fails and the cached snapshot is corrupt
(deserializing it throws). -/
def envAuthFailsBadCache : RoomEnv Nat Nat Nat Unit Unit :=
  { envBase with
    authorize := .error ()
    getDoc := fun _ _ => some 5
    load := fun _ _ => .error () }

/-- Environment with a cached offline snapshot (bytes 3) and working primitives. -/
def envOffline3 : RoomEnv Nat Nat Nat Unit Unit :=
  { envBase with getDoc := fun _ _ => some 3 }

/-- Environment whose peer rejects every inbound message. -/
def envReject : RoomEnv Nat Nat Nat Unit Unit :=
  { envBase with applyMessage := fun _ _ => none }

/-- Environment whose change primitive always returns the unchanged/deleted sentinel. -/
def envSentinel : RoomEnv Nat Nat Nat Unit Unit :=
  { envBase with change := fun _ _ => none }

/-- A controller holding current document 7, not yet online. -/
def cDoc7 : Client Nat := { reference := "room1", doc := some 7 }

/-- A controller online in room r1 with current document 7. -/
def cRoom : Client Nat :=
  { reference := "room1", socket := true, roomId := some "r1", doc := some 7 }

/-- A controller with a live socket and no registered update callback. -/
def cOnline : Client Nat := { reference := "room1", socket := true }

/-- A controller with neither a document nor a cached actor id. -/
def cNoActor : Client Nat := { reference := "room1" }

/-- A controller with a document and a cached actor id. -/
def cDocActor : Client Nat := { reference := "room1", doc := some 5, actorId := some "a" }

/-- A controller with a cached actor id but no document. -/
def cActorOnly : Client Nat := { reference := "room1", actorId := some "a" }

/-- The client state reached inside init() after going online on `cDoc7` and
restoring the offline snapshot 5 of `envMergeFails`. -/
def cMerge3 : Client Nat :=
  { reference := "room1", socket := true, roomId := some "r1", doc := some 5,
    actorId := none, onUpdateCb := false, socketUpdateHandlers := 0 }

/-- The client state reached inside init() after going online on `cDoc7` and
restoring the offline snapshot 3 of `envOffline3`. -/
def cSync3 : Client Nat :=
  { reference := "room1", socket := true, roomId := some "r1", doc := some 3,
    actorId := none, onUpdateCb := false, socketUpdateHandlers := 0 }

/-- A well-formed packet addressed to room r1. -/
def pktGood : RoomPacket Unit := { meta := { roomId := "r1" }, payload := { msg := some () } }

/-- A packet addressed to a different room r2. -/
def pktWrong : RoomPacket Unit := { meta := { roomId := "r2" }, payload := { msg := some () } }

/-- A packet addressed to room r1 with no msg field. -/
def pktNoMsg : RoomPacket Unit := { meta := { roomId := "r1" }, payload := { msg := none } }

/-- Two debounced save calls 50ms apart, well inside one 120ms window. -/
def callsTwo : List (Nat × String × Nat) := [(0, "default", 1), (50, "default", 2)]

/-- When a document already exists, the ensure step is the identity. -/
theorem ensureDoc_some (env : RoomEnv St D B M E) (c : Client D) (d : D)
    (h : c.doc = some d) : ensureDoc env c = (d, c, []) := by
  simp [ensureDoc, h]

/-- Whatever syncOfflineCache returns without throwing is the current document
of the client it leaves behind. -/
theorem syncOfflineCache_ok_doc (env : RoomEnv St D B M E) (c : Client D)
    (od : Option D) (c2 : Client D) (ns : List D)
    (h : syncOfflineCache env c = (.ok od, c2, ns)) : c2.doc = od := by
  rcases hg : env.getDoc c.reference "default" with _ | data
  · simp [syncOfflineCache, hg] at h
    obtain ⟨h1, h2, _⟩ := h
    rw [← h2, h1]
  · rcases hl : env.load data (some env.getOrCreateActor) with e | offlineDoc
    · simp [syncOfflineCache, hg, hl] at h
    · simp [syncOfflineCache, hg, hl] at h
      obtain ⟨h1, h2, _⟩ := h
      rw [← h2, ← h1]

/-- createDoc never touches the socket or the room identity. -/
theorem createDoc_preserves (env : RoomEnv St D B M E) (a : String) (st : Option St)
    (c : Client D) :
    (createDoc env a st c).2.1.socket = c.socket ∧
    (createDoc env a st c).2.1.roomId = c.roomId := by
  cases h : c.doc <;> simp [createDoc, h]

/-- ensureDoc never touches the socket or the room identity. -/
theorem ensureDoc_preserves (env : RoomEnv St D B M E) (c : Client D) :
    (ensureDoc env c).2.1.socket = c.socket ∧
    (ensureDoc env c).2.1.roomId = c.roomId := by
  cases h : c.doc <;>
    simp [ensureDoc, readActorIdThenCreateDoc, createDoc, h]

/-- syncOfflineCache never touches the socket or the room identity. -/
theorem syncOfflineCache_preserves (env : RoomEnv St D B M E) (c : Client D) :
    (syncOfflineCache env c).2.1.socket = c.socket ∧
    (syncOfflineCache env c).2.1.roomId = c.roomId := by
  rcases hg : env.getDoc c.reference "default" with _ | data
  · simp [syncOfflineCache, hg]
  · rcases hl : env.load data (some env.getOrCreateActor) with e | offlineDoc <;>
      simp [syncOfflineCache, hg, hl]

/-- restore never touches the socket or the room identity. -/
theorem restore_preserves (env : RoomEnv St D B M E) (c : Client D) :
    (restore env c).2.1.socket = c.socket ∧
    (restore env c).2.1.roomId = c.roomId := by
  have h1 := ensureDoc_preserves env c
  have h2 := syncOfflineCache_preserves env (ensureDoc env c).2.1
  rcases he : ensureDoc env c with ⟨d1, c1, ns1⟩
  rcases hs : syncOfflineCache env c1 with ⟨r, c2, ns2⟩
  rw [he] at h1 h2
  rw [hs] at h2
  simp only [restore, he, hs]
  exact ⟨h2.1.trans h1.1, h2.2.trans h1.2⟩

/-- Claim C4: when the relay rejects an inbound message (applyMessage returns
the undefined sentinel), the update handler throws an error carrying the raw
payload string, the current document is unchanged, nothing is persisted and
the user callback is not invoked. -/
theorem socketCallback_rejected_message (env : RoomEnv St D B M E) (data : String)
    (pkt : RoomPacket M) (c : Client D) (rid : String) (m : M) (d : D)
    (hrid : c.roomId = some rid)
    (hmatch : pkt.meta.roomId = rid)
    (hmsg : pkt.payload.msg = some m)
    (hdoc : c.doc = some d)
    (hrej : env.applyMessage (env.fixClock m) d = none) :
    socketCallback env data pkt c = (some (.corrupted data), c, {}) := by
  simp [socketCallback, hrid, hmatch, hmsg, ensureDoc_some env c d hdoc, hrej]

/-- Claim C4 witness. -/
theorem socketCallback_rejected_message_witness :
    socketCallback envReject "rawdata" pktGood cRoom
      = (some (.corrupted "rawdata"), cRoom, {}) :=
  socketCallback_rejected_message envReject "rawdata" pktGood cRoom "r1" () 7
    rfl rfl rfl rfl rfl

/-- Claim C5: an envelope whose roomId differs from the controller's room
identity is discarded silently: no throw, client unchanged, no persistence,
no user callback. -/
theorem socketCallback_wrong_room (env : RoomEnv St D B M E) (data : String)
    (pkt : RoomPacket M) (c : Client D) (rid : String)
    (hrid : c.roomId = some rid)
    (hne : pkt.meta.roomId ≠ rid) :
    socketCallback env data pkt c = (none, c, {}) := by
  simp [socketCallback, hrid, hne]

/-- Claim C5 witness. -/
theorem socketCallback_wrong_room_witness :
    socketCallback envBase "rawdata" pktWrong cRoom = (none, cRoom, {}) :=
  socketCallback_wrong_room envBase "rawdata" pktWrong cRoom "r1" rfl (by decide)

/-- Claim C6: an envelope for the right room whose payload lacks a msg field
makes the handler throw before any document mutation: client unchanged,
nothing persisted, user callback not invoked. -/
theorem socketCallback_missing_msg (env : RoomEnv St D B M E) (data : String)
    (pkt : RoomPacket M) (c : Client D) (rid : String)
    (hrid : c.roomId = some rid)
    (hmatch : pkt.meta.roomId = rid)
    (hmsg : pkt.payload.msg = none) :
    socketCallback env data pkt c = (some .missingMsg, c, {}) := by
  simp [socketCallback, hrid, hmatch, hmsg]

/-- Claim C6 witness. -/
theorem socketCallback_missing_msg_witness :
    socketCallback envBase "rawdata" pktNoMsg cRoom = (some .missingMsg, cRoom, {}) :=
  socketCallback_missing_msg envBase "rawdata" pktNoMsg cRoom "r1" rfl rfl rfl

/-- Claim C7 (failing input): on a controller with a live transport session and
no previously stored update callback, onUpdateDoc called twice does not throw
on the second call — it silently attaches a second socket handler, because the
online branch never records the callback that the invariant checks. -/
theorem onUpdateDoc_double_online_no_throw :
    (onUpdateDoc (D := Nat) cOnline).1 = none ∧
    (onUpdateDoc (onUpdateDoc (D := Nat) cOnline).2).1 = none ∧
    (onUpdateDoc (onUpdateDoc (D := Nat) cOnline).2).2.socketUpdateHandlers = 2 ∧
    (onUpdateDoc (D := Nat) { cNoActor with onUpdateCb := true }).1
      = some .doubleUpdateCallback := by
  decide

/-- Claim C10: the ensure-document step is idempotent — with a current document
present it returns that document unchanged and does not notify the relay; a
fresh default document is created and announced only when none exists; and a
second createDoc right after any createDoc returns the same document with no
state change and no notification. -/
theorem createDoc_idempotent (env : RoomEnv St D B M E) (a : String)
    (st : Option St) (c : Client D) :
    (∀ d, c.doc = some d → createDoc env a st c = (d, c, [])) ∧
    (c.doc = none →
      createDoc env a st c
        = (env.fromSeed (st.getD env.emptySeed) a,
           { c with doc := some (env.fromSeed (st.getD env.emptySeed) a) },
           [env.fromSeed (st.getD env.emptySeed) a])) ∧
    (∀ a2 st2, createDoc env a2 st2 (createDoc env a st c).2.1
        = ((createDoc env a st c).1, (createDoc env a st c).2.1, [])) := by
  refine ⟨fun d h => by simp [createDoc, h], fun h => by simp [createDoc, h], ?_⟩
  intro a2 st2
  cases h : c.doc <;> simp [createDoc, h]

/-- Claim C10 witness. -/
theorem createDoc_idempotent_witness :
    createDoc envBase "a" none cDocActor = (5, cDocActor, []) ∧
    createDoc envBase "a" none cNoActor = (0, { cNoActor with doc := some 0 }, [0]) ∧
    createDoc envBase "b" (some 9) (createDoc envBase "a" none cNoActor).2.1
      = ((createDoc envBase "a" none cNoActor).1,
         (createDoc envBase "a" none cNoActor).2.1, []) :=
  ⟨(createDoc_idempotent envBase "a" none cDocActor).1 5 rfl,
   (createDoc_idempotent envBase "a" none cNoActor).2.1 rfl,
   (createDoc_idempotent envBase "a" none cNoActor).2.2 "b" (some 9)⟩

/-- On a call sequence in which every call arrives strictly within `delay` of
its predecessor, the trailing-edge debounce fires exactly once, with the last
call's arguments. -/
theorem debounceLast_chain (delay : Nat) (l : List (Nat × α)) (hne : l ≠ [])
    (h : l.Chain' (fun a b => b.1 < a.1 + delay)) :
    debounceLast delay l = [(l.getLast hne).2] := by
  induction l with
  | nil => exact absurd rfl hne
  | cons x tl ih =>
    cases tl with
    | nil => cases x; rfl
    | cons y rest =>
      obtain ⟨hxy, h2⟩ := List.chain'_cons.mp h
      cases x with
      | mk t1 a1 =>
        cases y with
        | mk t2 a2 =>
          have hxy2 : t2 < t1 + delay := hxy
          rw [debounceLast, if_neg (by omega)]
          rw [ih (by simp) h2]
          simp [List.getLast_cons]

/-- Claim C9: N debounced save calls whose gaps are all inside the 120ms
window, each under the fixed document name, produce exactly one Identity
Store write, whose bytes are the serialization of the last document. -/
theorem saveOffline_debounced_single_write (env : RoomEnv St D B M E)
    (reference : String) (calls : List (Nat × String × D)) (hne : calls ≠ [])
    (hwin : calls.Chain' (fun a b => a.1 ≤ b.1 ∧ b.1 < a.1 + 120))
    (hname : ∀ x ∈ calls, x.2.1 = "default") :
    saveOfflineWrites env reference calls
      = [(reference, "default", env.save (calls.getLast hne).2.2)] := by
  have hchain : calls.Chain' (fun a b => b.1 < a.1 + 120) :=
    hwin.imp (fun a b h => h.2)
  unfold saveOfflineWrites
  rw [debounceLast_chain 120 calls hne hchain]
  simp only [List.map_cons, List.map_nil, saveOfflineWrite]
  rw [hname (calls.getLast hne) (List.getLast_mem hne)]

/-- Claim C9 witness. -/
theorem saveOffline_debounced_single_write_witness :
    callsTwo ≠ [] ∧
    callsTwo.Chain' (fun a b => a.1 ≤ b.1 ∧ b.1 < a.1 + 120) ∧
    (∀ x ∈ callsTwo, x.2.1 = "default") ∧
    saveOfflineWrites envBase "room1" callsTwo = [("room1", "default", 2)] := by
  refine ⟨by decide, by norm_num [callsTwo, List.chain'_cons], by decide, ?_⟩
  exact (saveOffline_debounced_single_write envBase "room1" callsTwo (by decide)
    (by norm_num [callsTwo, List.chain'_cons]) (by decide)).trans (by decide)

/-- Claim C1 (amended): on init()'s success path, if deserializing the server
state throws, or if it succeeds and merging it with the offline-restored
document throws, the error is caught and logged and init() returns the empty
document — but the controller's current document is left with its pre-failure
value (the pre-existing document, resp. the offline-restored one); it is not
reset. -/
theorem init_mergeFailure_recovery (env : RoomEnv St D B M E) (c : Client D)
    (d0 : D) (auth : AuthResponse B)
    (hdoc : c.doc = some d0) (hauth : env.authorize = .ok auth) :
    (∀ eL, env.load auth.roomState none = .error eL →
      init env c = (.ok (some env.emptyState), onlineClient auth c, { errorsLogged := 1 }) ∧
      (onlineClient auth c).doc = some d0) ∧
    (∀ s l c3 ns2 eM, env.load auth.roomState none = .ok s →
      syncOfflineCache env (onlineClient auth c) = (.ok (some l), c3, ns2) →
      env.mergeDoc l s = .error eM →
      init env c = (.ok (some env.emptyState), c3, { notifies := ns2, errorsLogged := 1 }) ∧
      c3.doc = some l) := by
  constructor
  · intro eL hload
    refine ⟨?_, by simp [onlineClient, hdoc]⟩
    simp [init, ensureDoc_some env c d0 hdoc, hauth, hload]
  · intro s l c3 ns2 eM hload hsync hmerge
    refine ⟨?_, syncOfflineCache_ok_doc env (onlineClient auth c) (some l) c3 ns2 hsync⟩
    simp [init, ensureDoc_some env c d0 hdoc, hauth, hload, hsync, hmerge]

/-- Claim C1 witness: load failure keeps document 7 while returning empty;
merge failure keeps the offline-restored document 5 while returning empty. -/
theorem init_mergeFailure_recovery_witness :
    (init envLoadFails cDoc7
       = (.ok (some 0), onlineClient authA cDoc7, { errorsLogged := 1 }) ∧
     (onlineClient authA cDoc7).doc = some 7) ∧
    (init envMergeFails cDoc7
       = (.ok (some 0), cMerge3, { notifies := [5], errorsLogged := 1 }) ∧
     cMerge3.doc = some 5) :=
  ⟨(init_mergeFailure_recovery envLoadFails cDoc7 7 authA rfl rfl).1 () rfl,
   (init_mergeFailure_recovery envMergeFails cDoc7 7 authA rfl rfl).2 10 5 cMerge3 [5] ()
     rfl (by decide) rfl⟩

/-- Claim C1 counterexample: with document 7 current and a server state whose
deserialization throws, init() returns the empty document 0 but the
controller's current document stays 7 — it is NOT reset to the empty
document, contrary to the claim. -/
theorem init_mergeFailure_not_reset_cex :
    (init envLoadFails cDoc7).1 = .ok (some 0) ∧
    (init envLoadFails cDoc7).2.1.doc = some 7 ∧
    (some 7 : Option Nat) ≠ some 0 := by
  decide

/-- Claim C2 (amended): when the authorization collaborator throws, init()
logs one warning, runs exactly the offline-cache restore of restore(), and —
provided that restore itself does not throw — returns the resulting current
document without throwing; the socket and the room identity are untouched. -/
theorem init_authFailure_offline (env : RoomEnv St D B M E) (c : Client D) (e : E)
    (od : Option D) (cR : Client D) (nsR : List D)
    (hauth : env.authorize = .error e)
    (hrestore : restore env c = (.ok od, cR, nsR)) :
    init env c = (.ok od, cR, { notifies := nsR, warns := 1 }) ∧
    cR.socket = c.socket ∧ cR.roomId = c.roomId := by
  have hp := restore_preserves env c
  rw [hrestore] at hp
  rcases he : ensureDoc env c with ⟨d1, c1, ns1⟩
  rcases hs : syncOfflineCache env c1 with ⟨r, c2, ns2⟩
  have hres : ((.ok od : Except E (Option D)), cR, nsR) = (r, c2, ns1 ++ ns2) := by
    rw [← hrestore]; simp [restore, he, hs]
  obtain ⟨h1, h2, h3⟩ : Except.ok od = r ∧ cR = c2 ∧ nsR = ns1 ++ ns2 := by
    simpa using hres
  subst h2
  rw [← h1] at hs
  have hdoc := syncOfflineCache_ok_doc env c1 od cR ns2 hs
  refine ⟨?_, hp.1, hp.2⟩
  simp [init, he, hauth, hs, hdoc, h3]

/-- Claim C2 witness. -/
theorem init_authFailure_offline_witness :
    init envAuthFails cDoc7 = (.ok (some 7), cDoc7, { warns := 1 }) ∧
    cDoc7.socket = cDoc7.socket ∧ cDoc7.roomId = cDoc7.roomId :=
  init_authFailure_offline envAuthFails cDoc7 () (some 7) cDoc7 [] rfl (by decide)

/-- Claim C2 counterexample: authorization fails AND the cached offline
snapshot is corrupt (deserializing it throws) — init() throws, contrary to
the claim that init() never throws when authorization fails. -/
theorem init_authFailure_throws_cex :
    envAuthFailsBadCache.authorize = (.error () : Except Unit (AuthResponse Nat)) ∧
    (init envAuthFailsBadCache cDoc7).1 = .error () := by
  decide

/-- Claim C3: on init()'s success path the server state is deserialized with
no actor identity, the offline cache is resolved by the restore() logic, the
two are merged with the offline document as the base (merge(offline, server)),
the merged result is adopted as current, the relay is notified with it last,
and it is the value init() returns. -/
theorem init_success_merges_offline_first (env : RoomEnv St D B M E) (c : Client D)
    (d0 : D) (auth : AuthResponse B) (serverState localDoc merged : D)
    (c3 : Client D) (ns2 : List D)
    (hdoc : c.doc = some d0)
    (hauth : env.authorize = .ok auth)
    (hload : env.load auth.roomState none = .ok serverState)
    (hsync : syncOfflineCache env (onlineClient auth c) = (.ok (some localDoc), c3, ns2))
    (hmerge : env.mergeDoc localDoc serverState = .ok merged) :
    init env c = (.ok (some merged), { c3 with doc := some merged },
      { notifies := ns2 ++ [merged] }) := by
  simp [init, ensureDoc_some env c d0 hdoc, hauth, hload, hsync, hmerge]

/-- Claim C3 witness: local offline document 3, stale server snapshot 10,
merge base offline-first gives 13, adopted, notified last, returned. -/
theorem init_success_merges_offline_first_witness :
    init envOffline3 cDoc7
      = (.ok (some 13), { cSync3 with doc := some 13 }, { notifies := [3, 13] }) :=
  init_success_merges_offline_first envOffline3 cDoc7 7 authA 10 3 13 cSync3 [3]
    rfl rfl rfl (by decide) rfl

/-- Claim C8 (amended): when change returns the unchanged/deleted sentinel and
an actor identity is cached, publishDoc does not throw: it re-runs the
ensure-document step under that identity — readopting the existing current
document unchanged when one exists, creating a fresh default document only
when none exists — persists the result under "default", notifies the relay
and returns it; with no cached actor identity it reports the fatal contract
violation. -/
theorem publishDoc_sentinel_behavior (env : RoomEnv St D B M E) (cb : St → Unit)
    (c : Client D) (hchange : env.change c.doc cb = none) :
    (c.actorId = none → publishDoc env cb c = (.error .noActorId, c, {})) ∧
    (∀ a, c.actorId = some a →
      (∀ d, c.doc = some d →
        publishDoc env cb c
          = (.ok d, { c with doc := some d },
             { notifies := [d], saves := [("default", d)] })) ∧
      (c.doc = none →
        publishDoc env cb c
          = (.ok (env.fromSeed env.emptySeed a),
             { c with doc := some (env.fromSeed env.emptySeed a) },
             { notifies := [env.fromSeed env.emptySeed a, env.fromSeed env.emptySeed a],
               saves := [("default", env.fromSeed env.emptySeed a)] }))) := by
  refine ⟨fun ha => by simp [publishDoc, hchange, ha],
    fun a ha => ⟨fun d hd => ?_, fun hd => ?_⟩⟩
  · have hch2 : env.change (some d) cb = none := by rwa [hd] at hchange
    simp [publishDoc, hd, hch2, ha, createDoc]
  · have hch2 : env.change none cb = none := by rwa [hd] at hchange
    simp [publishDoc, hd, hch2, ha, createDoc]

/-- Claim C8 witness: the three sentinel cases — no actor id (fatal), document
present (readopted unchanged), no document (fresh default created). -/
theorem publishDoc_sentinel_behavior_witness :
    publishDoc envSentinel (fun _ => ()) cNoActor = (.error .noActorId, cNoActor, {}) ∧
    publishDoc envSentinel (fun _ => ()) cDocActor
      = (.ok 5, { cDocActor with doc := some 5 },
         { notifies := [5], saves := [("default", 5)] }) ∧
    publishDoc envSentinel (fun _ => ()) cActorOnly
      = (.ok 0, { cActorOnly with doc := some 0 },
         { notifies := [0, 0], saves := [("default", 0)] }) :=
  ⟨(publishDoc_sentinel_behavior envSentinel (fun _ => ()) cNoActor rfl).1 rfl,
   ((publishDoc_sentinel_behavior envSentinel (fun _ => ()) cDocActor rfl).2 "a" rfl).1 5 rfl,
   ((publishDoc_sentinel_behavior envSentinel (fun _ => ()) cActorOnly rfl).2 "a" rfl).2 rfl⟩

/-- Claim C8 counterexample: with document 5 current, actor id cached and the
sentinel returned, publishDoc returns and readopts the OLD document 5 and
notifies only it; a recreated default document under the cached actor id
would be 0 ≠ 5 — no document is recreated, contrary to the claim. -/
theorem publishDoc_no_recreate_cex :
    (publishDoc envSentinel (fun _ => ()) cDocActor).1 = .ok 5 ∧
    (publishDoc envSentinel (fun _ => ()) cDocActor).2.1.doc = some 5 ∧
    envSentinel.fromSeed envSentinel.emptySeed "a" = 0 ∧ (5 : Nat) ≠ 0 ∧
    (publishDoc envSentinel (fun _ => ()) cDocActor).2.2.notifies = [5] := by
  decide

end Room
